import Mathlib

/-!
Shallow embedding of the sockle repository (client and server of a
text-message socket library) and proofs about the claims of its
specification.

The transport layer (tungstenite) is external: it is modelled by oracles.
A socket's successive receive calls are a script
`List (Except TransportError Frame)`; `write_pending` is a stream of
booleans indexed by the number of checks performed so far (`true` means
the call returned `Ok`, i.e. data is still pending); whether the initial
`close(cf)` call succeeds is a boolean.
-/

namespace Sockle

/-- Result of one `receive` on the transport: the payload kinds of
`tungstenite::Message` that the repository handles. -/
inductive Frame
  | text (s : String)
  | binary (b : List Nat)
  | ping
  | pong
  | close (reason : Option String)
  deriving Repr, DecidableEq

/-- The `std::io::ErrorKind` values the code distinguishes. -/
inductive IoKind
  | wouldBlock
  | timedOut
  | otherKind
  deriving Repr, DecidableEq

/-- `tungstenite::Error` as the code distinguishes its cases. -/
inductive TransportError
  | io (k : IoKind)
  | connectionClosed
  | alreadyClosed
  | protocolErr (msg : String)
  deriving Repr, DecidableEq

/-- `SimpleSockleError` from src/error.rs. -/
inductive SockleError
  | invalidUrl (msg : String)
  | socketDisconnected
  | socketConnected
  | socketError (e : TransportError)
  | ioError
  | socketCloseTimeout
  deriving Repr, DecidableEq

/-- `SimpleSockleClient::map_error`: `ConnectionClosed` and `AlreadyClosed`
become `SocketDisconnected`; every other transport error is wrapped. -/
def mapError : TransportError → SockleError
  | .connectionClosed => .socketDisconnected
  | .alreadyClosed => .socketDisconnected
  | e => .socketError e

/-- A connected transport session (`tungstenite::WebSocket`) together with
the oracle describing its future behaviour.  `frames` scripts the results
of successive `read_message` calls; `nonBlocking` is the mode bit toggled
by `set_nonblocking`; `closeOk` tells whether `socket.close(cf)` succeeds;
`pending k` tells whether the k-th `write_pending` check returns `Ok`. -/
structure WebSocket where
  frames : List (Except TransportError Frame)
  nonBlocking : Bool
  closeOk : Bool
  pending : Nat → Bool

/-- `SimpleSockleClient`: holds at most one socket; `none` is the
Disconnected state. -/
structure ClientSession where
  socket : Option WebSocket

/-- The bounded wait loop of `SimpleSockleClient::close_socket`:
`while !socket.write_pending().is_err() && timeout > Instant::now()`.
Time is modelled in ticks, one tick per loop iteration (each iteration
yields the scheduling slot); `fuel` is the number of ticks until the
10-second deadline.  Returns `true` exactly when the deadline expired
with `write_pending` still returning `Ok` (the code detects this with a
final `timeout < Instant::now()` comparison after the loop). -/
def closeWaitTimedOut (pending : Nat → Bool) : Nat → Nat → Bool
  | _, 0 => true
  | now, fuel + 1 => if pending now then closeWaitTimedOut pending (now + 1) fuel else false

/-- `SimpleSockleClient::close_socket` (the computed result; on every path
the code also sets `self.socket = None`, which the callers below model).
If sending the close frame fails the socket is assumed already closed and
the result is `Ok`; otherwise the bounded wait loop runs and a
`SocketCloseTimeout` error is reported when the 10-second ceiling was
reached before the flush completed. -/
def clientCloseSocket (ceiling : Nat) (ws : WebSocket) : Except SockleError Unit :=
  if ws.closeOk then
    if closeWaitTimedOut ws.pending 0 ceiling then .error .socketCloseTimeout else .ok ()
  else .ok ()

/-- `SockleClient::close` for `SimpleSockleClient`: a no-op `Ok` when
already Disconnected; otherwise `close_socket` with the
"Client requested close" frame, after which the socket field is `None`
on every path. -/
def close (ceiling : Nat) (c : ClientSession) : Except SockleError Unit × ClientSession :=
  match c.socket with
  | none => (.ok (), c)
  | some ws => (clientCloseSocket ceiling ws, ⟨none⟩)

/-- `SimpleSockleClient::read_message`, structurally recursive over the
receive script.  Binary, ping and pong frames are skipped and reading
continues; a text frame is returned; a transport error is mapped by
`map_error` and propagated; a close frame runs `close_socket` (result
discarded), drops the socket and returns `SocketDisconnected`.  `none`
means the script is exhausted, i.e. the call would block indefinitely. -/
def readMessageAux (ceiling : Nat) (ws : WebSocket) :
    List (Except TransportError Frame) →
    Option (Except SockleError String × Option WebSocket)
  | [] => none
  | .error e :: rest => some (.error (mapError e), some { ws with frames := rest })
  | .ok (.text t) :: rest => some (.ok t, some { ws with frames := rest })
  | .ok (.binary _) :: rest => readMessageAux ceiling ws rest
  | .ok .ping :: rest => readMessageAux ceiling ws rest
  | .ok .pong :: rest => readMessageAux ceiling ws rest
  | .ok (.close _) :: rest =>
    let _ignored := clientCloseSocket ceiling { ws with frames := rest }
    some (.error .socketDisconnected, none)

/-- `read_message` on the socket's own script. -/
def readMessage (ceiling : Nat) (ws : WebSocket) :
    Option (Except SockleError String × Option WebSocket) :=
  readMessageAux ceiling ws ws.frames

/-- `SimpleSockleClient::read_and_wrap_by_error_kind`: a successful read is
`some`, an io error whose kind satisfies `f` becomes `Ok none`, every other
error is propagated. -/
def readAndWrap (f : IoKind → Bool) (ceiling : Nat) (ws : WebSocket) :
    Option (Except SockleError (Option String) × Option WebSocket) :=
  match readMessage ceiling ws with
  | none => none
  | some (.ok m, ws2) => some (.ok (some m), ws2)
  | some (.error (.socketError (.io k)), ws2) =>
    if f k then some (.ok none, ws2) else some (.error (.socketError (.io k)), ws2)
  | some (.error e, ws2) => some (.error e, ws2)

/-- The error-kind predicate `try_read` uses: only `WouldBlock`. -/
def isWouldBlock : IoKind → Bool
  | .wouldBlock => true
  | _ => false

/-- `SockleClient::try_read` for `SimpleSockleClient`: `error_if_closed`,
set non-blocking mode, one `read_and_wrap_by_error_kind` poll, and restore
blocking mode only when the result is `Ok` (the code skips restoration on
the error path). -/
def tryRead (ceiling : Nat) (c : ClientSession) :
    Option (Except SockleError (Option String) × ClientSession) :=
  match c.socket with
  | none => some (.error .socketDisconnected, c)
  | some ws =>
    let ws1 := { ws with nonBlocking := true }
    match readAndWrap isWouldBlock ceiling ws1 with
    | none => none
    | some (.ok v, ws2) =>
      some (.ok v, ⟨ws2.map (fun w => { w with nonBlocking := false })⟩)
    | some (.error e, ws2) => some (.error e, ⟨ws2⟩)

/-- `SockleClient::read` for `SimpleSockleClient`: `error_if_closed` then a
blocking `read_message`. -/
def read (ceiling : Nat) (c : ClientSession) :
    Option (Except SockleError String × ClientSession) :=
  match c.socket with
  | none => some (.error .socketDisconnected, c)
  | some ws => (readMessage ceiling ws).map (fun p => (p.1, ⟨p.2⟩))

/-- `SockleClient::connect` for `SimpleSockleClient`: fails with
`SocketConnected` while a socket is held (checked before URL parsing and
before any transport action); otherwise parses the url (`parseRes` oracle)
and performs the transport connect (`res` oracle), storing the socket on
success. -/
def connect (parseRes : Except String Unit) (res : Except TransportError WebSocket)
    (c : ClientSession) : Except SockleError Unit × ClientSession :=
  match c.socket with
  | some _ => (.error .socketConnected, c)
  | none =>
    match parseRes with
    | .error msg => (.error (.invalidUrl msg), c)
    | .ok _ =>
      match res with
      | .error e => (.error (mapError e), c)
      | .ok ws => (.ok (), ⟨some ws⟩)

/-! ## Close-loop comparison (Close Coordinator)

Both `SimpleSockleClient::close_socket` and the server's
`Conn::close_socket` compute `timeout = Instant::now() + 10s` and spin a
wait loop, yielding each iteration.  The loops are embedded over the same
tick-based clock: the k-th iteration happens at time `now = k`, the
deadline is `ceiling` ticks after entry and `fuel` bounds the unrolling.
`closeLoopIters` counts how many yield iterations the loop body runs. -/

/-- Number of iterations performed by a `while cond { yield }` loop whose
condition is evaluated at successive clock ticks. -/
def closeLoopIters (cond : Nat → Bool) : Nat → Nat → Nat
  | _, 0 => 0
  | now, fuel + 1 => if cond now then closeLoopIters cond (now + 1) fuel + 1 else 0

/-- The client loop: `while !write_pending().is_err() && timeout > Instant::now()`,
i.e. continue while pending and the deadline is still in the future. -/
def clientCloseIters (pending : Nat → Bool) (ceiling fuel : Nat) : Nat :=
  closeLoopIters (fun now => pending now && decide (now < ceiling)) 0 fuel

/-- The server loop: `while write_pending().is_ok() && timeout < Instant::now()`,
i.e. continue while pending and the deadline is already in the past. -/
def serverCloseIters (pending : Nat → Bool) (ceiling fuel : Nat) : Nat :=
  closeLoopIters (fun now => pending now && decide (ceiling < now)) 0 fuel

/-! ## Server control plane -/

/-- `SockleServerMessage`. -/
inductive SockleServerMessage
  | Send (msg : String)
  | Shutdown
  deriving Repr, DecidableEq

/-- One registered per-connection control channel: the registry holds the
sender; `alive` records whether the paired receiver (the worker) still
exists, and `queue` the messages enqueued so far. -/
structure Channel where
  alive : Bool
  queue : List SockleServerMessage
  deriving Repr, DecidableEq

/-- `std::sync::mpsc::Sender::send`: enqueues when the receiver is alive;
when the receiver is gone the send fails, and every call site in the
repository discards that failure (`let _ = s.send(..)`). -/
def chanSend (m : SockleServerMessage) (ch : Channel) : Channel :=
  if ch.alive then { ch with queue := ch.queue ++ [m] } else ch

/-- `SimpleSockleServer::send`: iterate over the registry and enqueue
`Send(msg)` on each channel, ignoring individual failures. -/
def serverSend (msg : String) (senders : List Channel) : List Channel :=
  senders.map (chanSend (.Send msg))

/-- `SimpleSockleServer`: the optional listener-control channel
(`thread_ctrl`, `some alive` once `listen` has installed it, where `alive`
records whether the listener thread still holds the receiver) and the
shared registry of per-connection senders. -/
structure SimpleSockleServer where
  threadCtrl : Option Bool
  senders : List Channel
  deriving Repr, DecidableEq

/-- `SimpleSockleServer::new` / `default`. -/
def newServer : SimpleSockleServer := ⟨none, []⟩

/-- `SimpleSockleServer::listen`, at the level of the claims: bind
(`bindOk`), `set_nonblocking` (`setNonblockingOk`), then install
`thread_ctrl = Some(sender)` and spawn the listener thread (`spawnOk`).
The channel is installed before the spawn attempt, so a failed spawn
leaves the sender present with its receiver already dropped.  Returns
whether `listen` returned `Ok` together with the new state. -/
def listen (s : SimpleSockleServer) (bindOk setNonblockingOk spawnOk : Bool) :
    Bool × SimpleSockleServer :=
  if bindOk = false then (false, s)
  else if setNonblockingOk = false then (false, s)
  else (spawnOk, { s with threadCtrl := some spawnOk })

/-- How a `shutdown` call ends: `panicked` models the `unwrap()` of an
absent `thread_ctrl`; `errored` the `bail!` when the listener thread
cannot be signalled; `ok` the success path. -/
inductive ShutdownOutcome
  | panicked
  | errored
  | ok
  deriving Repr, DecidableEq

/-- `SimpleSockleServer::shutdown`: first enqueues `Shutdown` on every
registered channel (failures ignored), then `unwrap`s `thread_ctrl` —
panicking when it is `none` — and signals the listener thread, reporting
an error when the signal cannot be delivered. -/
def shutdown (s : SimpleSockleServer) : ShutdownOutcome × SimpleSockleServer :=
  let s1 : SimpleSockleServer := { s with senders := s.senders.map (chanSend .Shutdown) }
  match s1.threadCtrl with
  | none => (.panicked, s1)
  | some true => (.ok, s1)
  | some false => (.errored, s1)

/-- `SimpleSockleServer::connection_count`: the registry length. -/
def connectionCount (senders : List Channel) : Nat := senders.length

/-- The operations that touch the registry over the server's lifetime:
an accepted connection pushes a fresh channel (`listen`'s accept loop);
`send` and `shutdown` iterate without removing; a worker terminating (or
a peer closing) only drops the receiver side of its own channel. -/
inductive ServerOp
  | accept
  | send (msg : String)
  | shutdownAll
  | workerExit (i : Nat)

/-- Worker `i` terminating drops its receiver: the sender entry stays in
the registry, only its `alive` flag clears. -/
def markDead : Nat → List Channel → List Channel
  | _, [] => []
  | 0, ch :: rest => { ch with alive := false } :: rest
  | n + 1, ch :: rest => ch :: markDead n rest

/-- Effect of one lifecycle operation on the registry. -/
def applyOp (l : List Channel) : ServerOp → List Channel
  | .accept => l ++ [⟨true, []⟩]
  | .send m => serverSend m l
  | .shutdownAll => l.map (chanSend .Shutdown)
  | .workerExit i => markDead i l

/-- A whole lifecycle trace applied to the registry. -/
def applyOps (init : List Channel) (ops : List ServerOp) : List Channel :=
  ops.foldl applyOp init

/-- Number of accepted connections in a trace. -/
def countAccepts : List ServerOp → Nat
  | [] => 0
  | .accept :: rest => countAccepts rest + 1
  | _ :: rest => countAccepts rest

/-! ## Connection worker message handling -/

/-- The flush loop of `Conn::on_message` on the text path: pop replies in
FIFO order and write each as an individual text message; `writeOk k` is
the oracle for the k-th `write_message` call.  A failed write stops the
loop immediately.  Returns the messages actually written, in order, and
whether the whole queue was flushed. -/
def flushReplies (writeOk : Nat → Bool) : Nat → List String → List String × Bool
  | _, [] => ([], true)
  | k, m :: rest =>
    if writeOk k then
      let p := flushReplies writeOk (k + 1) rest
      (m :: p.1, p.2)
    else ([], false)

/-- Observable outcome of `Conn::on_message` on a text message: the text
messages written back to the socket, whether `close_socket` was invoked,
and the boolean the function returns (`false` meaning the worker loop
exits). -/
structure OnMsgOutcome where
  written : List String
  closedWorker : Bool
  keepRunning : Bool
  deriving Repr, DecidableEq

/-- `Conn::on_message` on `Message::Text`: the callback fills the pending
reply queue (`replies`, in enqueue order) and returns `cbErr`.  On
callback error the queue is never read: `close_socket` runs and the
worker stops.  On success the queue is flushed; a write failure runs
`close_socket` and stops the worker. -/
def connOnMessageText (writeOk : Nat → Bool) (replies : List String)
    (cbErr : Option String) : OnMsgOutcome :=
  match cbErr with
  | some _ => ⟨[], true, false⟩
  | none =>
    let p := flushReplies writeOk 0 replies
    ⟨p.1, !p.2, p.2⟩

/-! ## Theorems -/

/-- C1: the graceful close sequences are NOT identical.  The client's wait
loop (`timeout > Instant::now()`) runs until the flush completes or the
ceiling is reached, but the server worker's loop condition is
`timeout < Instant::now()` — false on entry, since the deadline lies in
the future — so the server performs zero wait iterations for every
pending-flush oracle and every ceiling, while the client with an
unflushed socket runs the full ceiling of yield iterations. -/
theorem server_close_never_waits :
    (∀ pending : Nat → Bool, ∀ ceiling fuel : Nat,
      serverCloseIters pending ceiling fuel = 0) ∧
    clientCloseIters (fun _ => true) 10 10 = 10 := by
  constructor
  · intro pending ceiling fuel
    cases fuel with
    | zero => rfl
    | succ n => simp [serverCloseIters, closeLoopIters]
  · rfl

/-- C2 (violated by the code): `try_read` on a Connected session whose
single receive fails with a non-WouldBlock io error propagates the error
but leaves the socket in non-blocking mode — the restoration step only
runs when the poll result is `Ok`. -/
theorem tryRead_error_skips_restore :
    (tryRead 10 ⟨some ⟨[.error (.io .otherKind)], false, true, fun _ => true⟩⟩).map
        (fun p => (p.1, p.2.socket.map WebSocket.nonBlocking)) =
      some (.error (.socketError (.io .otherKind)), some true) := rfl

/-- C4: `try_read` on a Connected session performs one poll in
non-blocking mode: a complete text message yields `Ok (some text)` with
blocking mode restored, a WouldBlock io error yields `Ok none` with
blocking mode restored, and every other transport error is mapped by
`map_error` and propagated to the caller. -/
theorem tryRead_poll_semantics (ceiling : Nat) (ws : WebSocket) (t : String)
    (rest : List (Except TransportError Frame)) (e : TransportError) :
    (ws.frames = .ok (.text t) :: rest →
      tryRead ceiling ⟨some ws⟩ =
        some (.ok (some t), ⟨some { ws with frames := rest, nonBlocking := false }⟩)) ∧
    (ws.frames = .error (.io .wouldBlock) :: rest →
      tryRead ceiling ⟨some ws⟩ =
        some (.ok none, ⟨some { ws with frames := rest, nonBlocking := false }⟩)) ∧
    (ws.frames = .error e :: rest → e ≠ .io .wouldBlock →
      tryRead ceiling ⟨some ws⟩ =
        some (.error (mapError e), ⟨some { ws with frames := rest, nonBlocking := true }⟩)) := by
  obtain ⟨fr, nb, co, pe⟩ := ws
  refine ⟨?_, ?_, ?_⟩
  · intro h
    cases h
    rfl
  · intro h
    cases h
    rfl
  · intro h hne
    cases h
    cases e with
    | io k =>
      cases k with
      | wouldBlock => exact absurd rfl hne
      | timedOut => rfl
      | otherKind => rfl
    | connectionClosed => rfl
    | alreadyClosed => rfl
    | protocolErr m => rfl

/-- Witness for C4 at concrete sessions: one with a text frame, one with
a WouldBlock receive, one with a fatal receive error. -/
theorem tryRead_poll_semantics_case :
    (tryRead 10 ⟨some ⟨[.ok (.text "hi")], false, true, fun _ => true⟩⟩ =
      some (.ok (some "hi"), ⟨some ⟨[], false, true, fun _ => true⟩⟩)) ∧
    (tryRead 10 ⟨some ⟨[.error (.io .wouldBlock)], false, true, fun _ => true⟩⟩ =
      some (.ok none, ⟨some ⟨[], false, true, fun _ => true⟩⟩)) ∧
    (tryRead 10 ⟨some ⟨[.error .connectionClosed], false, true, fun _ => true⟩⟩ =
      some (.error .socketDisconnected, ⟨some ⟨[], true, true, fun _ => true⟩⟩)) :=
  ⟨(tryRead_poll_semantics 10 ⟨[.ok (.text "hi")], false, true, fun _ => true⟩
      "hi" [] .connectionClosed).1 rfl,
   (tryRead_poll_semantics 10 ⟨[.error (.io .wouldBlock)], false, true, fun _ => true⟩
      "x" [] .connectionClosed).2.1 rfl,
   (tryRead_poll_semantics 10 ⟨[.error .connectionClosed], false, true, fun _ => true⟩
      "x" [] .connectionClosed).2.2 rfl (by decide)⟩

/-- C5 (counterexample): with a socket whose close frame is sent
successfully but whose pending data never flushes, the FIRST of two
consecutive `close()` calls fails with `SocketCloseTimeout` — so "two
consecutive close() calls both succeed" does not hold — while the second
call, on the now-Disconnected session, is an `Ok` no-op. -/
theorem close_first_call_times_out :
    (close 10 ⟨some ⟨[], false, true, fun _ => true⟩⟩).1 = .error .socketCloseTimeout ∧
    (close 10 (close 10 ⟨some ⟨[], false, true, fun _ => true⟩⟩).2).1 = .ok () :=
  ⟨rfl, rfl⟩

/-- C5 (amended): `close()` on a Disconnected session is a successful
no-op; `close()` on a Connected session always leaves the session
Disconnected, so the second of two consecutive calls always succeeds as a
no-op; the first call on a Connected session fails (with
`SocketCloseTimeout`) exactly when the close frame was sent and the flush
wait timed out. -/
theorem close_semantics (ceiling : Nat) (c : ClientSession) (ws : WebSocket) :
    close ceiling ⟨none⟩ = (.ok (), ⟨none⟩) ∧
    (close ceiling ⟨some ws⟩).2 = ⟨none⟩ ∧
    (close ceiling (close ceiling c).2).1 = .ok () ∧
    ((close ceiling ⟨some ws⟩).1 = .error .socketCloseTimeout ↔
      ws.closeOk = true ∧ closeWaitTimedOut ws.pending 0 ceiling = true) := by
  refine ⟨rfl, rfl, ?_, ?_⟩
  · obtain ⟨s⟩ := c
    cases s <;> rfl
  · cases hco : ws.closeOk <;>
      cases hto : closeWaitTimedOut ws.pending 0 ceiling <;>
      simp [close, clientCloseSocket, hco, hto]

/-- C7: `connect` on a Connected session fails with `SocketConnected`
before parsing the url or touching the transport, for every url-parse
oracle and every transport-connect oracle, and leaves the held socket
unchanged. -/
theorem connect_on_connected (parseRes : Except String Unit)
    (res : Except TransportError WebSocket) (ws : WebSocket) :
    connect parseRes res ⟨some ws⟩ = (.error .socketConnected, ⟨some ws⟩) := rfl

/-- Frames that `read_message` silently skips: binary, ping, pong. -/
def skippable : Except TransportError Frame → Bool
  | .ok (.binary _) => true
  | .ok .ping => true
  | .ok .pong => true
  | _ => false

lemma readMessageAux_skips (ceiling : Nat) (ws : WebSocket)
    (xs : List (Except TransportError Frame)) :
    ∀ pre, (∀ f ∈ pre, skippable f = true) →
      readMessageAux ceiling ws (pre ++ xs) = readMessageAux ceiling ws xs := by
  intro pre
  induction pre with
  | nil => intro _; rfl
  | cons f rest ih =>
    intro h
    have hf : skippable f = true := h f (List.mem_cons_self f rest)
    have hr : ∀ g ∈ rest, skippable g = true := fun g hg => h g (List.mem_cons_of_mem f hg)
    cases f with
    | error e => simp [skippable] at hf
    | ok fr =>
      cases fr with
      | text t => simp [skippable] at hf
      | binary b => simpa [readMessageAux] using ih hr
      | ping => simpa [readMessageAux] using ih hr
      | pong => simpa [readMessageAux] using ih hr
      | close r => simp [skippable] at hf

/-- C6: when a close frame arrives during a blocking `read` (possibly
after skipped binary/ping/pong frames), the session is torn down
synchronously — the socket is discarded, leaving the session
Disconnected — and the read reports `SocketDisconnected`; the close frame
is never returned as a message value. -/
theorem read_close_frame_teardown (ceiling : Nat) (ws : WebSocket)
    (pre : List (Except TransportError Frame)) (r : Option String)
    (rest : List (Except TransportError Frame))
    (hpre : ∀ f ∈ pre, skippable f = true)
    (hfr : ws.frames = pre ++ .ok (.close r) :: rest) :
    read ceiling ⟨some ws⟩ = some (.error .socketDisconnected, ⟨none⟩) := by
  simp only [read, readMessage, hfr]
  rw [readMessageAux_skips ceiling ws _ pre hpre]
  rfl

/-- Witness for C6: a ping frame followed by a close frame. -/
theorem read_close_frame_teardown_case :
    read 10 ⟨some ⟨[.ok .ping, .ok (.close none)], false, true, fun _ => true⟩⟩ =
      some (.error .socketDisconnected, ⟨none⟩) :=
  read_close_frame_teardown 10
    ⟨[.ok .ping, .ok (.close none)], false, true, fun _ => true⟩
    [.ok .ping] none [] (by decide) rfl

lemma flushReplies_all_ok (writeOk : Nat → Bool) :
    ∀ (replies : List String) (k : Nat),
      (∀ i, i < replies.length → writeOk (k + i) = true) →
      flushReplies writeOk k replies = (replies, true) := by
  intro replies
  induction replies with
  | nil => intro k _; rfl
  | cons m rest ih =>
    intro k h
    have h0 : writeOk k = true := by simpa using h 0 (Nat.succ_pos rest.length)
    have hr : ∀ i, i < rest.length → writeOk (k + 1 + i) = true := by
      intro i hi
      have e : k + (i + 1) = k + 1 + i := by omega
      have := h (i + 1) (by simpa using Nat.succ_lt_succ hi)
      rwa [e] at this
    simp [flushReplies, h0, ih (k + 1) hr]

lemma flushReplies_stops_at_failure (writeOk : Nat → Bool) :
    ∀ (replies : List String) (k j : Nat),
      j < replies.length → writeOk (k + j) = false →
      (∀ i, i < j → writeOk (k + i) = true) →
      flushReplies writeOk k replies = (replies.take j, false) := by
  intro replies
  induction replies with
  | nil => intro k j hj _ _; exact absurd hj (Nat.not_lt_zero j)
  | cons m rest ih =>
    intro k j hj hfail hok
    cases j with
    | zero =>
      have h0 : writeOk k = false := by simpa using hfail
      simp [flushReplies, h0]
    | succ j2 =>
      have h0 : writeOk k = true := by simpa using hok 0 (Nat.succ_pos j2)
      have hj2 : j2 < rest.length := by simpa using hj
      have hfail2 : writeOk (k + 1 + j2) = false := by
        have e : k + (j2 + 1) = k + 1 + j2 := by omega
        rwa [e] at hfail
      have hok2 : ∀ i, i < j2 → writeOk (k + 1 + i) = true := by
        intro i hi
        have e : k + (i + 1) = k + 1 + i := by omega
        have := hok (i + 1) (Nat.succ_lt_succ hi)
        rwa [e] at this
      simp [flushReplies, h0, ih (k + 1) j2 hj2 hfail2 hok2]

/-- C3: on an inbound text message, a callback error means no queued reply
is written, `close_socket` runs and the worker stops; on callback success
with all writes succeeding, every enqueued reply is written, in enqueue
order, and the worker keeps running; a write failure at position j aborts
the flush after the first j replies, runs `close_socket` and stops the
worker. -/
theorem conn_on_message_text_semantics (writeOk : Nat → Bool) (replies : List String)
    (cbErr : Option String) :
    (∀ emsg, cbErr = some emsg →
      connOnMessageText writeOk replies cbErr = ⟨[], true, false⟩) ∧
    (cbErr = none → (∀ i, i < replies.length → writeOk i = true) →
      connOnMessageText writeOk replies cbErr = ⟨replies, false, true⟩) ∧
    (cbErr = none → ∀ j, j < replies.length → writeOk j = false →
      (∀ i, i < j → writeOk i = true) →
      connOnMessageText writeOk replies cbErr = ⟨replies.take j, true, false⟩) := by
  refine ⟨?_, ?_, ?_⟩
  · intro emsg h
    cases h
    rfl
  · intro h hok
    cases h
    have hall : ∀ i, i < replies.length → writeOk (0 + i) = true := by simpa using hok
    simp [connOnMessageText, flushReplies_all_ok writeOk replies 0 hall]
  · intro h j hj hfail hok
    cases h
    have hfail0 : writeOk (0 + j) = false := by simpa using hfail
    have hok0 : ∀ i, i < j → writeOk (0 + i) = true := by simpa using hok
    simp [connOnMessageText, flushReplies_stops_at_failure writeOk replies 0 j hj hfail0 hok0]

/-- Witness for C3: a failing callback flushes nothing; a successful
callback with working writes echoes both replies in order; a write
failure on the second reply leaves only the first written and stops the
worker. -/
theorem conn_on_message_text_case :
    (connOnMessageText (fun _ => true) ["a", "b"] (some "boom") = ⟨[], true, false⟩) ∧
    (connOnMessageText (fun _ => true) ["a", "b"] none = ⟨["a", "b"], false, true⟩) ∧
    (connOnMessageText (fun k => decide (k = 0)) ["a", "b"] none = ⟨["a"], true, false⟩) :=
  ⟨(conn_on_message_text_semantics (fun _ => true) ["a", "b"] (some "boom")).1 "boom" rfl,
   (conn_on_message_text_semantics (fun _ => true) ["a", "b"] none).2.1 rfl
     (fun _ _ => rfl),
   (conn_on_message_text_semantics (fun k => decide (k = 0)) ["a", "b"] none).2.2 rfl
     1 (by decide) (by decide) (by decide)⟩

/-- C8: `send` enqueues `Send(msg)` on every registered channel whose
receiver is still alive and leaves channels with a gone receiver
unchanged, without shrinking the registry — a failed enqueue on one
channel never prevents the enqueue on any other index. -/
theorem server_send_broadcast (msg : String) (senders : List Channel) (i : Nat)
    (ch : Channel) (h : senders[i]? = some ch) :
    (serverSend msg senders).length = senders.length ∧
    (ch.alive = true →
      (serverSend msg senders)[i]? = some { ch with queue := ch.queue ++ [.Send msg] }) ∧
    (ch.alive = false → (serverSend msg senders)[i]? = some ch) := by
  refine ⟨by simp [serverSend], ?_, ?_⟩
  · intro ha
    simp [serverSend, List.getElem?_map, h, chanSend, ha]
  · intro ha
    simp [serverSend, List.getElem?_map, h, chanSend, ha]

/-- Witness for C8: with a dead channel at index 0 and a live one at
index 1, the live channel still receives the broadcast and the dead one
is unchanged. -/
theorem server_send_broadcast_case :
    (serverSend "m" [⟨false, []⟩, ⟨true, []⟩]).length = 2 ∧
    (serverSend "m" [⟨false, []⟩, ⟨true, []⟩])[1]? = some ⟨true, [.Send "m"]⟩ ∧
    (serverSend "m" [⟨false, []⟩, ⟨true, []⟩])[0]? = some ⟨false, []⟩ :=
  ⟨(server_send_broadcast "m" [⟨false, []⟩, ⟨true, []⟩] 1 ⟨true, []⟩ (by decide)).1,
   (server_send_broadcast "m" [⟨false, []⟩, ⟨true, []⟩] 1 ⟨true, []⟩ (by decide)).2.1 rfl,
   (server_send_broadcast "m" [⟨false, []⟩, ⟨true, []⟩] 0 ⟨false, []⟩ (by decide)).2.2 rfl⟩

lemma markDead_length (i : Nat) (l : List Channel) : (markDead i l).length = l.length := by
  induction l generalizing i with
  | nil => simp [markDead]
  | cons ch rest ih =>
    cases i with
    | zero => simp [markDead]
    | succ n => simp [markDead, ih]

lemma applyOp_length (l : List Channel) (op : ServerOp) :
    (applyOp l op).length = l.length + (match op with | .accept => 1 | _ => 0) := by
  cases op with
  | accept => simp [applyOp]
  | send m => simp [applyOp, serverSend]
  | shutdownAll => simp [applyOp]
  | workerExit i => simp [applyOp, markDead_length]

/-- C9: no lifecycle operation removes a registry entry: every single
operation leaves `connection_count` no smaller, and over any trace the
count equals its initial value plus the number of connections ever
accepted — not the number currently live. -/
theorem connection_count_monotone (init : List Channel) (ops : List ServerOp) :
    connectionCount (applyOps init ops) = connectionCount init + countAccepts ops ∧
    ∀ (l : List Channel) (op : ServerOp),
      connectionCount l ≤ connectionCount (applyOp l op) := by
  constructor
  · induction ops generalizing init with
    | nil => simp [applyOps, countAccepts, connectionCount]
    | cons op rest ih =>
      have h2 := ih (applyOp init op)
      have h1 := applyOp_length init op
      simp only [applyOps, List.foldl_cons] at h2 ⊢
      cases op <;>
        simp only [countAccepts, connectionCount] at h1 h2 ⊢ <;>
        omega
  · intro l op
    have h1 := applyOp_length l op
    cases op <;> simp only [connectionCount] at h1 ⊢ <;> omega

/-- C10 (counterexample): a `listen` that binds and configures the
listener successfully but fails at the thread-spawn step returns failure,
yet installs the listener-control channel with its receiver already gone —
so a subsequent `shutdown` reaches its error return after a FAILED
`listen`, refuting "the error return is reachable only after a successful
listen()". -/
theorem shutdown_error_after_failed_listen :
    (listen newServer true true false).1 = false ∧
    (shutdown (listen newServer true true false).2).1 = .errored :=
  ⟨rfl, rfl⟩

/-- C10 (amended): `shutdown` panics exactly when the listener-control
channel was never installed — in particular on a fresh server where
`listen` was never called — and the channel is installed by any `listen`
call that passes binding and configuration, even one whose thread spawn
then fails; `shutdown` reaches its error return exactly when the channel
is installed but the listener thread no longer holds the receiver. -/
theorem shutdown_panic_characterization (s : SimpleSockleServer) (b n sp : Bool) :
    ((shutdown s).1 = .panicked ↔ s.threadCtrl = none) ∧
    (shutdown newServer).1 = .panicked ∧
    ((listen newServer b n sp).2.threadCtrl ≠ none ↔ b = true ∧ n = true) ∧
    ((shutdown s).1 = .errored ↔ s.threadCtrl = some false) := by
  refine ⟨?_, rfl, ?_, ?_⟩
  · simp only [shutdown]
    cases s.threadCtrl with
    | none => simp
    | some a => cases a <;> simp
  · cases b <;> cases n <;> cases sp <;> simp [listen, newServer]
  · simp only [shutdown]
    cases s.threadCtrl with
    | none => simp
    | some a => cases a <;> simp

end Sockle
